import Mathlib

/-!
Shallow embedding of the ELMO2 / GILES leakage-model core
(src/src/Model_Power.hpp and src/src/Model_Hamming_Weight.cpp),
with theorems checking the natural-language specification against it.

A C++ std::bitset of 32 bits and a std::uint32_t are both embedded as a
natural number of which only the low 32 bits are ever read (Nat.testBit);
C++ doubles are embedded as exact rationals; the implicit double-to-int
conversion in calculate_term is embedded as truncation toward zero.
-/

/-- Numeric value of one bit of a 32-bit word, as used by the C++
bitset subscript operator inside arithmetic. -/
def bitVal (v i : ℕ) : ℕ := if v.testBit i then 1 else 0

/-- Population count of the low 32 bits of a word. -/
def popcount32 (v : ℕ) : ℕ := ∑ i ∈ Finset.range 32, bitVal v i

/-- Embedding of Instruction_Terms_Helper::calculate_interactions from
Model_Power.hpp: the nested loop over term_1 and over term_2 from
term_1 + 1, summing the product of the two bits. -/
def Instruction_Terms_Helper.calculate_interactions (p_term : ℕ) : ℕ :=
  ∑ term_1 ∈ Finset.range 32,
    ∑ term_2 ∈ Finset.Ico (term_1 + 1) 32,
      bitVal p_term term_1 * bitVal p_term term_2

/-- Embedding of Instruction_Terms_Interactions::calculate_bitflips from
Model_Power.hpp: the loop sets bit i of the result exactly when the two
operands differ at bit i. -/
def Instruction_Terms_Interactions.calculate_bitflips
    (p_instruction_1_operand p_instruction_2_operand : ℕ) : ℕ :=
  ∑ i ∈ Finset.range 32,
    if p_instruction_1_operand.testBit i != p_instruction_2_operand.testBit i
    then 2 ^ i else 0

/-- Name of the observed pipeline stage, as used throughout the source. -/
def Execute_Stage : String := "Execute"

/-- Embedding of Assembly_Instruction (declared in Assembly_Instruction.hpp,
queried at the boundary): an opcode and its operand tokens. -/
structure Assembly_Instruction where
  m_opcode : String
  m_operands : List String

/-- Modelled from the spec: the Execution collaborator is external to the
core (its header is not under src); section 6 of the spec fixes its query
surface, embedded here as an abstract record of total query functions. -/
structure Execution where
  Get_Cycle_Count : ℕ
  Is_Normal_State : ℕ → String → Bool
  Get_Instruction : ℕ → String → Assembly_Instruction
  Get_Operand_Value : ℕ → Assembly_Instruction → ℕ → ℕ

/-- Modelled from the spec: the Coefficients collaborator is external to the
core (its header is not under src); it maps an opcode and a term name to an
ordered sequence of real weights, and the construction-time check needs to
ask whether data exists for a given opcode and term. -/
structure Coefficients where
  Get_Coefficients : String → String → List ℚ
  Has_Coefficients : String → String → Bool

/-- Embedding of Model_Power::Assembly_Instruction_Power from
Model_Power.hpp: an instruction together with its two operand values and
their cached self-interaction counts. The C++ member initialiser list omits
Operand_1 and Operand_2 (they are const and never initialised, which no
conforming compiler accepts); they are set from the constructor arguments
here, which is the only reading under which the struct is buildable. -/
structure Assembly_Instruction_Power where
  m_opcode : String
  m_omerands : List String
  Operand_1 : ℕ
  Operand_2 : ℕ
  Operand_1_Bit_Interactions : ℕ
  Operand_2_Bit_Interactions : ℕ

/-- Embedding of the Assembly_Instruction_Power constructor. -/
def Assembly_Instruction_Power.construct (p_instruction : Assembly_Instruction)
    (p_operand_1 p_operand_2 : ℕ) : Assembly_Instruction_Power :=
  { m_opcode := p_instruction.m_opcode
    m_omerands := p_instruction.m_operands
    Operand_1 := p_operand_1
    Operand_2 := p_operand_2
    Operand_1_Bit_Interactions :=
      Instruction_Terms_Helper.calculate_interactions p_operand_1
    Operand_2_Bit_Interactions :=
      Instruction_Terms_Helper.calculate_interactions p_operand_2 }

/-- Embedding of Model_Power::Instruction_Terms_Interactions from
Model_Power.hpp: the cross-instruction terms. -/
structure Instruction_Terms_Interactions where
  Operand_1_Bit_Flip : ℕ
  Operand_2_Bit_Flip : ℕ
  Bit_Flip1_Bit_Interactions : ℕ
  Bit_Flip2_Bit_Interactions : ℕ

/-- Embedding of the Instruction_Terms_Interactions constructor, exactly as
in the source: both bit-flip vectors are computed from Operand_1 of the
first instruction and Operand_2 of the second instruction. -/
def Instruction_Terms_Interactions.construct
    (p_instruction_1 p_instruction_2 : Assembly_Instruction_Power) :
    Instruction_Terms_Interactions :=
  { Operand_1_Bit_Flip :=
      Instruction_Terms_Interactions.calculate_bitflips
        p_instruction_1.Operand_1 p_instruction_2.Operand_2
    Operand_2_Bit_Flip :=
      Instruction_Terms_Interactions.calculate_bitflips
        p_instruction_1.Operand_1 p_instruction_2.Operand_2
    Bit_Flip1_Bit_Interactions :=
      Instruction_Terms_Helper.calculate_interactions
        (Instruction_Terms_Interactions.calculate_bitflips
          p_instruction_1.Operand_1 p_instruction_2.Operand_2)
    Bit_Flip2_Bit_Interactions :=
      Instruction_Terms_Helper.calculate_interactions
        (Instruction_Terms_Interactions.calculate_bitflips
          p_instruction_1.Operand_1 p_instruction_2.Operand_2) }

/-- Truncation of an exact rational toward zero, the conversion a C++
double undergoes when assigned to an int. -/
def ratTrunc (q : ℚ) : ℤ := if 0 ≤ q then ⌊q⌋ else ⌈q⌉

/-- Embedding of the Model base-class state (Model.hpp is not under src;
the spec fixes it as two non-owned read-only references). Model_Power
derives from it and adds nothing further. -/
structure Model_Power where
  m_execution : Execution
  m_coefficients : Coefficients

/-- Embedding of Model_Hamming_Weight: same base-class state. -/
structure Model_Hamming_Weight where
  m_execution : Execution
  m_coefficients : Coefficients

def Model_Power.term_Operand_1 : String := "Operand1_Bit_Interactions"

def Model_Power.term_Operand_2 : String := "Operand2_Bit_Interactions"

def Model_Power.term_Bit_Flip_1 : String := "Operand1_Bit_Flip"

def Model_Power.term_Bit_Flip_2 : String := "Operand2_Bit_Flip"

/-- Modelled from the spec: the static member m_required_interaction_terms
of Model_Power is declared in Model_Power.hpp but its defining cpp file is
not under src; section 4.5 of the spec fixes it as a fixed, never empty set
of four interaction-term identifiers (self-interaction of each operand and
bit-flip interaction of each operand). -/
def Model_Power.m_required_interaction_terms : List String :=
  [Model_Power.term_Operand_1, Model_Power.term_Operand_2,
   Model_Power.term_Bit_Flip_1, Model_Power.term_Bit_Flip_2]

/-- Embedding of Model_Power::Get_Interaction_Terms from Model_Power.hpp. -/
def Model_Power.Get_Interaction_Terms (_ : Model_Power) : List String :=
  Model_Power.m_required_interaction_terms

/-- Embedding of Model_Power::calculate_term from Model_Power.hpp. The C++
accumulator is declared with auto total = 0 and is therefore an int: every
addition of the double product p_instruction_term * bit is converted back
to int, truncating toward zero, and the final int is returned as double. -/
def Model_Power.calculate_term (m : Model_Power)
    (p_opcode p_term_name : String) (p_instruction_term : ℚ) : ℚ :=
  (((m.m_coefficients.Get_Coefficients p_opcode p_term_name).foldl
      (fun total b => ratTrunc ((total : ℚ) + p_instruction_term * b))
      (0 : ℤ) : ℤ) : ℚ)

/-- Embedding of Model_Power::get_instruction_terms from Model_Power.hpp:
on a stall or flush the bundle is built with both operand values 0,
otherwise with the first and second operand values of the instruction in
the Execute stage. -/
def Model_Power.get_instruction_terms (m : Model_Power) (p_cycle : ℕ) :
    Assembly_Instruction_Power :=
  if !(m.m_execution.Is_Normal_State p_cycle Execute_Stage) then
    Assembly_Instruction_Power.construct
      (m.m_execution.Get_Instruction p_cycle Execute_Stage) 0 0
  else
    Assembly_Instruction_Power.construct
      (m.m_execution.Get_Instruction p_cycle Execute_Stage)
      (m.m_execution.Get_Operand_Value p_cycle
        (m.m_execution.Get_Instruction p_cycle Execute_Stage) 1)
      (m.m_execution.Get_Operand_Value p_cycle
        (m.m_execution.Get_Instruction p_cycle Execute_Stage) 2)

/-- Modelled from the spec: the opcodes actually present in the supplied
Execution, one per cycle of the observed stage. -/
def Execution.encountered_opcodes (e : Execution) : List String :=
  (List.range e.Get_Cycle_Count).map fun i =>
    (e.Get_Instruction i Execute_Stage).m_opcode

/-- Modelled from the spec: Check_Interaction_Terms is implemented in the
Model base class, which is not under src; section 4.4 of the spec fixes it
as the check that every term name in the required set has calibration data
for every opcode present in the supplied Execution. -/
def Model_Power.Check_Interaction_Terms (e : Execution) (c : Coefficients) :
    Bool :=
  Model_Power.m_required_interaction_terms.all fun term =>
    (e.encountered_opcodes).all fun opcode => c.Has_Coefficients opcode term

def Model_Power.construction_error : String :=
  "Model was not provided with correct interaction terms by the Coefficients file."

/-- Embedding of the Model_Power constructor from Model_Power.hpp: store
the two references, then throw unless Check_Interaction_Terms passes. The
thrown exception is embedded as the error branch of Except. -/
def Model_Power.construct (p_execution : Execution)
    (p_coefficients : Coefficients) : Except String Model_Power :=
  if Model_Power.Check_Interaction_Terms p_execution p_coefficients then
    Except.ok
      { m_execution := p_execution, m_coefficients := p_coefficients }
  else
    Except.error Model_Power.construction_error

/-- Embedding of the static member from Model_Hamming_Weight.cpp lines
40 and 41: the required interaction terms of the Hamming Weight model are
the empty set. -/
def Model_Hamming_Weight.m_required_interaction_terms : List String := []

/-- Embedding of Model_Hamming_Weight::Get_Interaction_Terms: returns the
static member, exactly as the Power model override under src does. -/
def Model_Hamming_Weight.Get_Interaction_Terms (_ : Model_Hamming_Weight) :
    List String :=
  Model_Hamming_Weight.m_required_interaction_terms

/-- Modelled from the spec: the hamming_weight helper called by
Model_Hamming_Weight::Generate_Traces is defined in a header not under
src; the spec fixes it as the population count of the 32-bit value. -/
def hamming_weight (value : ℕ) : ℕ := popcount32 value

/-- Embedding of Model_Hamming_Weight::Generate_Traces from
Model_Hamming_Weight.cpp: one sample per cycle, 0 on a stall or flush,
otherwise the hamming weight of the value of the first operand of the
instruction in the Execute stage. Samples are floats in the source,
embedded as exact rationals. -/
def Model_Hamming_Weight.Generate_Traces (m : Model_Hamming_Weight) :
    List ℚ :=
  (List.range m.m_execution.Get_Cycle_Count).map fun i =>
    if !(m.m_execution.Is_Normal_State i Execute_Stage) then 0
    else
      (hamming_weight
        (m.m_execution.Get_Operand_Value i
          (m.m_execution.Get_Instruction i Execute_Stage) 1) : ℚ)

/-- Modelled from the spec: scalar feature attached to each required term
name, section 4.5 step 4 (self-interaction scalars from the current bundle,
cross-cycle scalars from the bit-flip interactions). -/
def Model_Power.term_scalar (bundle : Assembly_Instruction_Power)
    (cross_1 cross_2 : ℕ) (term : String) : ℚ :=
  if term = Model_Power.term_Operand_1 then bundle.Operand_1_Bit_Interactions
  else if term = Model_Power.term_Operand_2 then bundle.Operand_2_Bit_Interactions
  else if term = Model_Power.term_Bit_Flip_1 then cross_1
  else cross_2

/-- Modelled from the spec: the per-cycle sample of the Power model is the
sum over all required terms of the contribution of that term, section 4.5
steps 4 and 5. -/
def Model_Power.power_sample (m : Model_Power)
    (bundle : Assembly_Instruction_Power) (cross_1 cross_2 : ℕ) : ℚ :=
  (Model_Power.m_required_interaction_terms.map fun term =>
      Model_Power.calculate_term m bundle.m_opcode term
        (Model_Power.term_scalar bundle cross_1 cross_2 term)).sum

/-- Modelled from the spec: one step of Power trace generation, section 4.5
steps 1 to 5. A stall or flush appends 0 and leaves the carried previous
bundle unchanged; a normal cycle resolves the bundle, derives the
cross-cycle interactions when a previous bundle exists, and carries the
current bundle forward. -/
def Model_Power.trace_step (m : Model_Power)
    (prev : Option Assembly_Instruction_Power) (i : ℕ) :
    ℚ × Option Assembly_Instruction_Power :=
  if !(m.m_execution.Is_Normal_State i Execute_Stage) then (0, prev)
  else
    let bundle := Model_Power.get_instruction_terms m i
    match prev with
    | none => (Model_Power.power_sample m bundle 0 0, some bundle)
    | some p =>
      let inter := Instruction_Terms_Interactions.construct bundle p
      (Model_Power.power_sample m bundle inter.Bit_Flip1_Bit_Interactions
        inter.Bit_Flip2_Bit_Interactions, some bundle)

/-- Modelled from the spec: the linear pass of Power trace generation over
a list of cycle indices, threading the carried previous bundle. -/
def Model_Power.traces_go (m : Model_Power) :
    Option Assembly_Instruction_Power → List ℕ → List ℚ
  | _, [] => []
  | prev, i :: rest =>
    let s := Model_Power.trace_step m prev i
    s.1 :: Model_Power.traces_go m s.2 rest

/-- Modelled from the spec: Model_Power::Generate_Traces is declared in
Model_Power.hpp but its defining cpp file is not under src; section 4.5 of
the spec fixes it as one linear pass over cycles 0 to N - 1. -/
def Model_Power.Generate_Traces (m : Model_Power) : List ℚ :=
  Model_Power.traces_go m none (List.range m.m_execution.Get_Cycle_Count)

/-- Concrete instruction used by the evaluation theorems. -/
def sample_add_instruction : Assembly_Instruction :=
  { m_opcode := "ADD", m_operands := [] }

/-- Concrete one-cycle Execution whose single cycle is a stall. -/
def sample_stalled_execution : Execution :=
  { Get_Cycle_Count := 1
    Is_Normal_State := fun _ _ => false
    Get_Instruction := fun _ _ => sample_add_instruction
    Get_Operand_Value := fun _ _ _ => 7 }

/-- Concrete one-cycle Execution whose single cycle is normal. -/
def sample_normal_execution : Execution :=
  { Get_Cycle_Count := 1
    Is_Normal_State := fun _ _ => true
    Get_Instruction := fun _ _ => sample_add_instruction
    Get_Operand_Value := fun _ _ _ => 7 }

/-- Concrete Coefficients source holding an all-ones 32-entry vector for
every opcode and term. -/
def sample_ones_coefficients : Coefficients :=
  { Get_Coefficients := fun _ _ => List.replicate 32 1
    Has_Coefficients := fun _ _ => true }

/-- Concrete Coefficients source holding data for nothing. -/
def sample_empty_coefficients : Coefficients :=
  { Get_Coefficients := fun _ _ => []
    Has_Coefficients := fun _ _ => false }

/-- Concrete Power model over the stalled Execution. -/
def sample_power_model : Model_Power :=
  { m_execution := sample_stalled_execution
    m_coefficients := sample_ones_coefficients }

/-- Concrete Hamming Weight model over the stalled Execution. -/
def sample_hamming_model : Model_Hamming_Weight :=
  { m_execution := sample_stalled_execution
    m_coefficients := sample_ones_coefficients }

/-- Concrete Hamming Weight model over the normal Execution. -/
def sample_hamming_model_normal : Model_Hamming_Weight :=
  { m_execution := sample_normal_execution
    m_coefficients := sample_ones_coefficients }

/-- Concrete feature bundle with operand values 1 and 0. -/
def sample_bundle_a : Assembly_Instruction_Power :=
  Assembly_Instruction_Power.construct sample_add_instruction 1 0

/-- Concrete feature bundle with operand values 0 and 2. -/
def sample_bundle_b : Assembly_Instruction_Power :=
  Assembly_Instruction_Power.construct sample_add_instruction 0 2

/-- The sums of products of bits over index pairs (t1, t2) with t1 < t2 < n
count the pairs where both bits are 1, which is a binomial coefficient of
the total number of set bits. -/
theorem pair_sum_eq_choose (f : ℕ → ℕ) (hf : ∀ i, f i ≤ 1) :
    ∀ n, (∑ t1 ∈ Finset.range n, ∑ t2 ∈ Finset.Ico (t1 + 1) n, f t1 * f t2)
      = (∑ i ∈ Finset.range n, f i).choose 2 := by
  intro n
  induction n with
  | zero => rfl
  | succ k ih =>
    rw [Finset.sum_range_succ, Finset.sum_range_succ (f := f)]
    have hsplit : ∀ t1 ∈ Finset.range k,
        (∑ t2 ∈ Finset.Ico (t1 + 1) (k + 1), f t1 * f t2)
          = (∑ t2 ∈ Finset.Ico (t1 + 1) k, f t1 * f t2) + f t1 * f k := by
      intro t1 ht1
      exact Finset.sum_Ico_succ_top (Nat.succ_le_of_lt (Finset.mem_range.mp ht1)) _
    rw [Finset.sum_congr rfl hsplit, Finset.sum_add_distrib, ih, Finset.Ico_self,
      Finset.sum_empty, add_zero, ← Finset.sum_mul]
    rcases Nat.le_one_iff_eq_zero_or_eq_one.mp (hf k) with h0 | h1
    · simp [h0]
    · rw [h1, mul_one]
      have hcs : (∑ i ∈ Finset.range k, f i + 1).choose 2
          = (∑ i ∈ Finset.range k, f i).choose 1 + (∑ i ∈ Finset.range k, f i).choose 2 :=
        Nat.choose_succ_succ _ 1
      rw [hcs, Nat.choose_one_right, Nat.add_comm]

theorem bitVal_le_one (v i : ℕ) : bitVal v i ≤ 1 := by
  unfold bitVal; split <;> omega

/-- calculate_interactions counts the pairs of set bit positions. -/
theorem calculate_interactions_eq_choose (v : ℕ) :
    Instruction_Terms_Helper.calculate_interactions v = (popcount32 v).choose 2 :=
  pair_sum_eq_choose (bitVal v) (bitVal_le_one v) 32

/-- Writing a number bit by bit as a sum of powers of two reconstructs its
residue modulo the corresponding power of two. -/
theorem sum_ite_two_pow_eq_mod (m : ℕ) :
    ∀ n, (∑ i ∈ Finset.range n, if m.testBit i then 2 ^ i else 0) = m % 2 ^ n := by
  intro n
  induction n with
  | zero => simp [Nat.mod_one]
  | succ k ih =>
    rw [Finset.sum_range_succ, ih, Nat.mod_pow_succ]
    have hb : m.testBit k = decide (m / 2 ^ k % 2 = 1) := Nat.testBit_to_div_mod
    have h2 : m / 2 ^ k % 2 < 2 := Nat.mod_lt _ (by omega)
    rcases (by omega : m / 2 ^ k % 2 = 0 ∨ m / 2 ^ k % 2 = 1) with h | h <;>
      rw [hb, h] <;> simp

/-- calculate_bitflips computes the bitwise XOR of the low 32 bits of its
arguments. -/
theorem calculate_bitflips_eq_xor_mod (a b : ℕ) :
    Instruction_Terms_Interactions.calculate_bitflips a b = (a ^^^ b) % 2 ^ 32 := by
  unfold Instruction_Terms_Interactions.calculate_bitflips
  rw [← sum_ite_two_pow_eq_mod (a ^^^ b) 32]
  refine Finset.sum_congr rfl fun i _ => ?_
  have hx : (a ^^^ b).testBit i = (a.testBit i != b.testBit i) := by
    rw [Nat.testBit_xor]
  rw [hx]

theorem calculate_interactions_all_ones :
    Instruction_Terms_Helper.calculate_interactions (2 ^ 32 - 1) = 496 := by
  rw [calculate_interactions_eq_choose]
  have hp : popcount32 (2 ^ 32 - 1) = 32 := by decide
  rw [hp]
  decide

theorem calculate_interactions_zero :
    Instruction_Terms_Helper.calculate_interactions 0 = 0 := by decide

theorem traces_go_length (m : Model_Power)
    (prev : Option Assembly_Instruction_Power) (l : List ℕ) :
    (Model_Power.traces_go m prev l).length = l.length := by
  induction l generalizing prev with
  | nil => rfl
  | cons i rest ih => simp [Model_Power.traces_go, ih]

/-- A fold whose step function fixes 0 on input 1 stays at 0 over a list
of ones. -/
theorem foldl_replicate_one_fixed (f : ℤ → ℚ → ℤ) (hf : f 0 1 = 0) :
    ∀ n, List.foldl f 0 (List.replicate n (1 : ℚ)) = 0 := by
  intro n
  induction n with
  | zero => rfl
  | succ k ih => rw [List.replicate_succ, List.foldl_cons, hf, ih]

/-- Claim C1: the specification requires each stored bit-flip vector to be
the XOR of operand k of the current bundle with operand k of the previous
bundle, at matching operand indices. The source computes both stored
vectors from Operand_1 of the first bundle and Operand_2 of the second
bundle: at bundles with operand values (1, 0) and (0, 2) both stored
vectors are 3, while the matching-index XOR vectors are 1 and 2, so the
code contradicts the claim at this input. -/
theorem C1_bitflip_operand_mismatch :
    (Instruction_Terms_Interactions.construct sample_bundle_a sample_bundle_b).Operand_1_Bit_Flip = 3
    ∧ (Instruction_Terms_Interactions.construct sample_bundle_a sample_bundle_b).Operand_2_Bit_Flip = 3
    ∧ Instruction_Terms_Interactions.calculate_bitflips
        sample_bundle_a.Operand_1 sample_bundle_b.Operand_1 = 1
    ∧ Instruction_Terms_Interactions.calculate_bitflips
        sample_bundle_a.Operand_2 sample_bundle_b.Operand_2 = 2
    ∧ (Instruction_Terms_Interactions.construct sample_bundle_a sample_bundle_b).Operand_1_Bit_Flip
        ≠ Instruction_Terms_Interactions.calculate_bitflips
            sample_bundle_a.Operand_1 sample_bundle_b.Operand_1
    ∧ (Instruction_Terms_Interactions.construct sample_bundle_a sample_bundle_b).Operand_2_Bit_Flip
        ≠ Instruction_Terms_Interactions.calculate_bitflips
            sample_bundle_a.Operand_2 sample_bundle_b.Operand_2 := by
  decide

/-- Claim C2: the claim states that calculate_term returns the exact real
sum of the scalar times each coefficient, with no truncation of
intermediate results. The C++ accumulator is an int, so every partial sum
is truncated toward zero: with scalar one half and an all-ones 32-entry
coefficient vector the code returns 0, while the exact semantics of the
claim give 16. -/
theorem C2_calculate_term_truncates :
    Model_Power.calculate_term sample_power_model ("ADD")
        Model_Power.term_Operand_1 ((1 : ℚ) / 2) = 0
    ∧ ((1 : ℚ) / 2) *
        (sample_ones_coefficients.Get_Coefficients ("ADD")
          Model_Power.term_Operand_1).sum = 16
    ∧ Model_Power.calculate_term sample_power_model ("ADD")
          Model_Power.term_Operand_1 ((1 : ℚ) / 2)
        ≠ ((1 : ℚ) / 2) *
            (sample_ones_coefficients.Get_Coefficients ("ADD")
              Model_Power.term_Operand_1).sum := by
  have hstep : ratTrunc ((((0 : ℤ) : ℚ)) + (1 : ℚ) / 2 * 1) = 0 := by
    have h12 : ((((0 : ℤ) : ℚ)) + (1 : ℚ) / 2 * 1) = 1 / 2 := by norm_num
    rw [h12]
    unfold ratTrunc
    rw [if_pos (by norm_num : (0 : ℚ) ≤ 1 / 2)]
    exact Int.floor_eq_zero_iff.mpr (Set.mem_Ico.mpr ⟨by norm_num, by norm_num⟩)
  have hcode : Model_Power.calculate_term sample_power_model ("ADD")
      Model_Power.term_Operand_1 ((1 : ℚ) / 2) = 0 := by
    have hdef : Model_Power.calculate_term sample_power_model ("ADD")
        Model_Power.term_Operand_1 ((1 : ℚ) / 2)
        = ((List.foldl (fun (total : ℤ) (b : ℚ) =>
              ratTrunc ((total : ℚ) + (1 : ℚ) / 2 * b)) 0
            (List.replicate 32 (1 : ℚ)) : ℤ) : ℚ) := rfl
    rw [hdef, foldl_replicate_one_fixed _ hstep 32]
    rfl
  have hsum : (sample_ones_coefficients.Get_Coefficients ("ADD")
      Model_Power.term_Operand_1).sum = (32 : ℚ) := by
    have hdef : (sample_ones_coefficients.Get_Coefficients ("ADD")
        Model_Power.term_Operand_1) = List.replicate 32 (1 : ℚ) := rfl
    rw [hdef, List.sum_replicate]
    norm_num
  refine ⟨hcode, ?_, ?_⟩
  · rw [hsum]; norm_num
  · rw [hcode, hsum]; norm_num

/-- Claim C3: calculate_interactions counts the bit-position pairs (m, n)
with m < n where both bits are set, equals k(k-1)/2 for k the population
count, and takes the values 0, 3 and 496 at words with 0, 3 and 32 set
bits. -/
theorem C3_pairwise_interaction_count (v : ℕ) :
    Instruction_Terms_Helper.calculate_interactions v
        = (((Finset.range 32).sigma fun m => Finset.Ico (m + 1) 32).filter
            fun p => v.testBit p.1 ∧ v.testBit p.2).card
    ∧ Instruction_Terms_Helper.calculate_interactions v
        = popcount32 v * (popcount32 v - 1) / 2
    ∧ Instruction_Terms_Helper.calculate_interactions 0 = 0
    ∧ Instruction_Terms_Helper.calculate_interactions 7 = 3
    ∧ Instruction_Terms_Helper.calculate_interactions (2 ^ 32 - 1) = 496 := by
  refine ⟨?_, ?_, calculate_interactions_zero, by decide,
    calculate_interactions_all_ones⟩
  · rw [Finset.card_filter, Finset.sum_sigma]
    unfold Instruction_Terms_Helper.calculate_interactions
    refine Finset.sum_congr rfl fun m _ => Finset.sum_congr rfl fun n _ => ?_
    unfold bitVal
    by_cases h1 : v.testBit m <;> by_cases h2 : v.testBit n <;> simp [h1, h2]
  · rw [calculate_interactions_eq_choose, Nat.choose_two_right]

/-- Claim C4: every sample of the Hamming Weight trace is 0 on a stall or
flush cycle and otherwise the population count of the value of the first
operand of the instruction in the observed stage; the population count is
0 at the zero word and 32 at the all-ones word. -/
theorem C4_hamming_weight_sample (m : Model_Hamming_Weight) (i : ℕ)
    (h : i < (Model_Hamming_Weight.Generate_Traces m).length) :
    ((Model_Hamming_Weight.Generate_Traces m).get ⟨i, h⟩
      = if m.m_execution.Is_Normal_State i Execute_Stage
        then (popcount32 (m.m_execution.Get_Operand_Value i
            (m.m_execution.Get_Instruction i Execute_Stage) 1) : ℚ)
        else 0)
    ∧ popcount32 0 = 0 ∧ popcount32 (2 ^ 32 - 1) = 32 := by
  refine ⟨?_, by decide, by decide⟩
  unfold Model_Hamming_Weight.Generate_Traces at h ⊢
  rw [List.get_eq_getElem]
  simp only [List.getElem_map, List.getElem_range]
  cases hN : m.m_execution.Is_Normal_State i Execute_Stage <;>
    simp [hN, hamming_weight]

/-- Witness for claim C4 at the concrete stalled one-cycle Execution. -/
theorem C4_hamming_weight_sample_witness :
    (Model_Hamming_Weight.Generate_Traces sample_hamming_model).get
        ⟨0, by simp [Model_Hamming_Weight.Generate_Traces, sample_hamming_model,
          sample_stalled_execution]⟩ = 0 := by
  have h := C4_hamming_weight_sample sample_hamming_model 0
    (by simp [Model_Hamming_Weight.Generate_Traces, sample_hamming_model,
      sample_stalled_execution])
  simpa [sample_hamming_model, sample_stalled_execution] using h.1

/-- Claim C5: for both models in the repository, the generated trace has
one sample per cycle: its length equals the cycle count of the Execution. -/
theorem C5_trace_length_eq_cycle_count (mh : Model_Hamming_Weight)
    (mp : Model_Power) :
    (Model_Hamming_Weight.Generate_Traces mh).length
        = mh.m_execution.Get_Cycle_Count
    ∧ (Model_Power.Generate_Traces mp).length
        = mp.m_execution.Get_Cycle_Count := by
  constructor
  · simp [Model_Hamming_Weight.Generate_Traces]
  · simp [Model_Power.Generate_Traces, traces_go_length]

/-- Claim C6: Power model construction returns the configuration error
exactly when some required term lacks coefficient data for some opcode
present in the Execution, and otherwise returns the model holding the two
supplied references. -/
theorem C6_power_construction_check (e : Execution) (c : Coefficients) :
    (Model_Power.construct e c = Except.error Model_Power.construction_error
      ↔ ¬ ∀ term ∈ Model_Power.m_required_interaction_terms,
          ∀ opcode ∈ e.encountered_opcodes,
            c.Has_Coefficients opcode term = true)
    ∧ (Model_Power.construct e c
        = Except.ok { m_execution := e, m_coefficients := c }
      ↔ ∀ term ∈ Model_Power.m_required_interaction_terms,
          ∀ opcode ∈ e.encountered_opcodes,
            c.Has_Coefficients opcode term = true) := by
  have hcheck : Model_Power.Check_Interaction_Terms e c = true
      ↔ ∀ term ∈ Model_Power.m_required_interaction_terms,
          ∀ opcode ∈ e.encountered_opcodes,
            c.Has_Coefficients opcode term = true := by
    unfold Model_Power.Check_Interaction_Terms
    simp [List.all_eq_true]
  unfold Model_Power.construct
  by_cases hc : Model_Power.Check_Interaction_Terms e c = true
  · rw [if_pos hc]
    constructor
    · constructor
      · intro hEq; exact absurd hEq (by simp)
      · intro hall; exact absurd (hcheck.mp hc) hall
    · exact ⟨fun _ => hcheck.mp hc, fun _ => rfl⟩
  · rw [if_neg hc]
    have hAll : ¬ ∀ term ∈ Model_Power.m_required_interaction_terms,
        ∀ opcode ∈ e.encountered_opcodes,
          c.Has_Coefficients opcode term = true :=
      fun hall => hc (hcheck.mpr hall)
    constructor
    · exact ⟨fun _ => hAll, fun _ => rfl⟩
    · constructor
      · intro hEq; exact absurd hEq (by simp)
      · intro hall; exact absurd hall hAll

/-- Witness for claim C6: with a Coefficients source holding no data,
construction over the one-cycle Execution fails with the configuration
error. -/
theorem C6_power_construction_check_witness :
    Model_Power.construct sample_stalled_execution sample_empty_coefficients
      = Except.error Model_Power.construction_error :=
  (C6_power_construction_check sample_stalled_execution
      sample_empty_coefficients).1.mpr
    (by
      intro hall
      have hmem1 : Model_Power.term_Operand_1
          ∈ Model_Power.m_required_interaction_terms := by
        simp [Model_Power.m_required_interaction_terms]
      have hmem2 : sample_add_instruction.m_opcode
          ∈ sample_stalled_execution.encountered_opcodes := by
        simp [Execution.encountered_opcodes, sample_stalled_execution]
      have hfalse := hall Model_Power.term_Operand_1 hmem1
        sample_add_instruction.m_opcode hmem2
      simp [sample_empty_coefficients] at hfalse)

/-- Claim C7: at a stall or flush cycle the resolved feature bundle of the
Power model carries both operand values 0 and therefore both
self-interaction scalars 0. -/
theorem C7_stall_bundle_zero (m : Model_Power) (p_cycle : ℕ)
    (h : m.m_execution.Is_Normal_State p_cycle Execute_Stage = false) :
    (Model_Power.get_instruction_terms m p_cycle).Operand_1 = 0
    ∧ (Model_Power.get_instruction_terms m p_cycle).Operand_2 = 0
    ∧ (Model_Power.get_instruction_terms m p_cycle).Operand_1_Bit_Interactions = 0
    ∧ (Model_Power.get_instruction_terms m p_cycle).Operand_2_Bit_Interactions = 0 := by
  unfold Model_Power.get_instruction_terms
  rw [h]
  simp [Assembly_Instruction_Power.construct, calculate_interactions_zero]

/-- Witness for claim C7 at the concrete stalled one-cycle Execution. -/
theorem C7_stall_bundle_zero_witness :
    (Model_Power.get_instruction_terms sample_power_model 0).Operand_1 = 0
    ∧ (Model_Power.get_instruction_terms sample_power_model 0).Operand_2 = 0
    ∧ (Model_Power.get_instruction_terms sample_power_model 0).Operand_1_Bit_Interactions = 0
    ∧ (Model_Power.get_instruction_terms sample_power_model 0).Operand_2_Bit_Interactions = 0 :=
  C7_stall_bundle_zero sample_power_model 0 rfl

/-- Claim C8: calculate_bitflips is bitwise XOR on 32-bit words: bit i of
the result is set exactly when the arguments differ at bit i; the bit
flips of a word with itself are 0, the bit flips of a word with its
complement are the all-ones word, whose interaction count is 496. -/
theorem C8_bitflip_is_xor (a b : ℕ) :
    Instruction_Terms_Interactions.calculate_bitflips a b = (a ^^^ b) % 2 ^ 32
    ∧ (∀ i, i < 32 →
        (Instruction_Terms_Interactions.calculate_bitflips a b).testBit i
          = (a.testBit i != b.testBit i))
    ∧ Instruction_Terms_Interactions.calculate_bitflips a a = 0
    ∧ Instruction_Terms_Interactions.calculate_bitflips a (a ^^^ (2 ^ 32 - 1))
        = 2 ^ 32 - 1
    ∧ Instruction_Terms_Helper.calculate_interactions
        (Instruction_Terms_Interactions.calculate_bitflips a (a ^^^ (2 ^ 32 - 1)))
        = 496 := by
  have hmask : a ^^^ (a ^^^ (2 ^ 32 - 1)) = 2 ^ 32 - 1 := by
    rw [← Nat.xor_assoc, Nat.xor_self, Nat.zero_xor]
  have hflip : Instruction_Terms_Interactions.calculate_bitflips a
      (a ^^^ (2 ^ 32 - 1)) = 2 ^ 32 - 1 := by
    rw [calculate_bitflips_eq_xor_mod, hmask, Nat.mod_eq_of_lt]
    exact Nat.sub_lt (Nat.two_pow_pos 32) one_pos
  refine ⟨calculate_bitflips_eq_xor_mod a b, ?_, ?_, hflip, ?_⟩
  · intro i hi
    rw [calculate_bitflips_eq_xor_mod, Nat.testBit_mod_two_pow, Nat.testBit_xor]
    simp [hi]
  · rw [calculate_bitflips_eq_xor_mod, Nat.xor_self, Nat.zero_mod]
  · rw [hflip]
    exact calculate_interactions_all_ones

/-- Witness for claim C8 at the concrete words 5 and 3 and bit 1. -/
theorem C8_bitflip_is_xor_witness :
    (Instruction_Terms_Interactions.calculate_bitflips 5 3).testBit 1
      = ((5 : ℕ).testBit 1 != (3 : ℕ).testBit 1) :=
  (C8_bitflip_is_xor 5 3).2.1 1 (by decide)

/-- Claim C9: the required interaction terms of the Hamming Weight model
are the empty set, Get_Interaction_Terms returns it, and trace generation
does not depend on the Coefficients source at all. -/
theorem C9_hamming_required_terms_empty :
    Model_Hamming_Weight.m_required_interaction_terms = ([] : List String)
    ∧ (∀ m : Model_Hamming_Weight,
        Model_Hamming_Weight.Get_Interaction_Terms m = [])
    ∧ (∀ (e : Execution) (c₁ c₂ : Coefficients),
        Model_Hamming_Weight.Generate_Traces
            { m_execution := e, m_coefficients := c₁ }
          = Model_Hamming_Weight.Generate_Traces
              { m_execution := e, m_coefficients := c₂ }) :=
  ⟨rfl, fun _ => rfl, fun _ _ _ => rfl⟩

/-- Claim C10: for every pair of bundles, the two stored bit-flip vectors
coincide and therefore so do the two bit-flip interaction scalars, since
both vectors are computed from the same argument pair in the source. -/
theorem C10_bitflip_vectors_equal
    (p_instruction_1 p_instruction_2 : Assembly_Instruction_Power) :
    (Instruction_Terms_Interactions.construct p_instruction_1 p_instruction_2).Operand_1_Bit_Flip
      = (Instruction_Terms_Interactions.construct p_instruction_1 p_instruction_2).Operand_2_Bit_Flip
    ∧ (Instruction_Terms_Interactions.construct p_instruction_1 p_instruction_2).Bit_Flip1_Bit_Interactions
      = (Instruction_Terms_Interactions.construct p_instruction_1 p_instruction_2).Bit_Flip2_Bit_Interactions :=
  ⟨rfl, rfl⟩
